import Mathlib

/-!
Shallow embedding of the AIAgent repository's core orchestration logic:
the tool registry and dispatcher (src/base_tool.py), the Excel export tool
(src/excel_tool.py), and the chat orchestration loop, result caching and
result formatting of `AIAgent` (src/agent.py).

Python values are modelled by the inductive `PVal`; Python's implicit
mutation of `self` is modelled by explicit state passing over the
`AIAgent` structure; Python exceptions are modelled by `Except String`.
The database cursor owned by `DatabaseConnection` is modelled by its only
field the agent code reads, `cursor.description`, threaded through tool
executors as an `Option (List String)` (None when no query has run).
External collaborators (the Azure OpenAI client, pyodbc, pandas, the
filesystem) are out of the spec's scope; the model call is modelled by a
script of responses, and the pandas/file-writing step of the export tool
is modelled by its observable return value.
-/

set_option autoImplicit false

namespace AIAgentSpec

/-- A Python runtime value as used by the agent: None, bool, int, str,
list, dict (insertion-ordered string-keyed mapping), and a database row
(a pyodbc `Row`: an iterable of cells carrying an optional
`cursor_description` list of column names). -/
inductive PVal where
  | vNone
  | vBool (b : Bool)
  | vInt (n : Int)
  | vStr (s : String)
  | vList (xs : List PVal)
  | vDict (kvs : List (String × PVal))
  | vRow (cells : List PVal) (cursorDesc : Option (List String))
deriving Repr, Inhabited

/-- Python truthiness (`bool(v)`): None and False are falsy, numbers are
falsy iff zero, strings and collections are falsy iff empty; a database
row is a sequence, falsy iff it has no cells. -/
def pyTruthy : PVal → Bool
  | .vNone => false
  | .vBool b => b
  | .vInt n => n != 0
  | .vStr s => !s.isEmpty
  | .vList xs => !xs.isEmpty
  | .vDict kvs => !kvs.isEmpty
  | .vRow cells _ => !cells.isEmpty

/-- Lookup in a dict value (`d.get(k)`-like observation used in theorem
statements). -/
def dictGet : PVal → String → Option PVal
  | .vDict kvs, k => (kvs.find? (fun kv => kv.fst == k)).map (·.snd)
  | _, _ => none

/-- An argument mapping `name → value`, as decoded from the model's
function-call JSON (`**kwargs` in the source); insertion-ordered like a
Python dict. -/
abbrev Args := List (String × PVal)

/-- Membership test for a key in an argument mapping (`name in kwargs`). -/
def argsContains (args : Args) (k : String) : Bool :=
  args.any (fun kv => kv.fst == k)

/-- Key lookup in an argument mapping (`kwargs.get(name)`). -/
def argsGet (args : Args) (k : String) : Option PVal :=
  (args.find? (fun kv => kv.fst == k)).map (·.snd)

/-- Key assignment `args[k] = v`: replaces the value in place when the key
exists (Python dicts keep insertion order on re-assignment), otherwise
appends the new key at the end. -/
def argsSet (args : Args) (k : String) (v : PVal) : Args :=
  if argsContains args k then
    args.map (fun kv => if kv.fst == k then (k, v) else kv)
  else
    args ++ [(k, v)]

/-- One parameter specification of a tool descriptor
(src/base_tool.py `get_parameters` entries): name, JSON type,
human-readable text, and the required flag (`param.get('required', False)`). -/
structure ParamSpec where
  name : String
  ptype : String
  text : String
  required : Bool
deriving Repr, DecidableEq

/-- A registered tool (src/base_tool.py `BaseTool`): its name, its ordered
parameter descriptors, and its executor. The executor takes the decoded
arguments and the current database cursor description and returns either
a raised exception (`Except.error`) or the produced value together with
the cursor description after execution (query tools refresh it; the Excel
export tool leaves it unchanged). -/
structure Tool where
  name : String
  params : List ParamSpec
  exec : Args → Option (List String) → Except String (PVal × Option (List String))

/-- `BaseTool.validate_parameters` (src/base_tool.py lines 85-97): walks
the parameter descriptors in order and raises
`ValueError("Missing required parameter: <name>")` at the first one that
is flagged required but absent from the argument mapping. -/
def validateParameters (t : Tool) (args : Args) : Except String Unit :=
  match t.params.find? (fun p => p.required && !(argsContains args p.name)) with
  | some p => .error ("Missing required parameter: " ++ p.name)
  | none => .ok ()

/-- `ToolRegistry` (src/base_tool.py): an insertion-ordered mapping from
tool name to tool. -/
structure ToolRegistry where
  tools : List (String × Tool)

/-- `ToolRegistry.get`: name lookup returning the tool or None. -/
def ToolRegistry.get (r : ToolRegistry) (name : String) : Option Tool :=
  (r.tools.find? (fun kv => kv.fst == name)).map (·.snd)

/-- `ToolRegistry.execute` (src/base_tool.py lines 137-156): looks the
tool up (raising `ValueError("Tool not found: <name>")` if absent),
validates required parameters, then invokes the executor. The cursor
description is threaded explicitly (in the source the executor mutates
the shared `DatabaseConnection` it closes over). -/
def ToolRegistry.execute (r : ToolRegistry) (toolName : String) (args : Args)
    (desc : Option (List String)) : Except String (PVal × Option (List String)) :=
  match r.get toolName with
  | none => .error ("Tool not found: " ++ toolName)
  | some t =>
    match validateParameters t args with
    | .error e => .error e
    | .ok _ => t.exec args desc

/-- Placeholder for the timestamp-based default filename of
`ExcelExportTool.execute` (src/excel_tool.py line 66): the source defaults
to the current wall-clock time, which has no counterpart in a pure
embedding; no claim depends on the filename. -/
def excelDefaultFilename : String := "export_19700101_000000"

/-- The `api_base_url` the export tool is registered with
(src/tools.py line 519). -/
def excelApiBaseUrl : String := "http://localhost:8000"

/-- Column-name union in first-appearance order, as pandas infers
DataFrame columns from a list of dict records. -/
def pandasDictColumns (rows : List PVal) : List String :=
  rows.foldl (fun acc r =>
    match r with
    | .vDict kvs =>
      kvs.foldl (fun cols kv => if cols.contains kv.fst then cols else cols ++ [kv.fst]) acc
    | _ => acc) []

/-- Length of a value seen as a row of cells (scalars count as one cell). -/
def pvalSeqLength : PVal → Nat
  | .vList xs => xs.length
  | .vRow cells _ => cells.length
  | .vStr s => s.length
  | _ => 1

/-- Models `list(df.columns)` of `pd.DataFrame(rows)`: key union for dict
records, a positional integer range otherwise. pandas is an external
collaborator outside the scope of the spec; only the shapes the agent
actually produces (lists of dicts and positional rows) are modelled, and
no claim reads this field. -/
def pandasColumns (rows : List PVal) : List PVal :=
  if rows.all (fun r => match r with | .vDict _ => true | _ => false) then
    (pandasDictColumns rows).map .vStr
  else
    (List.range (rows.foldl (fun m r => max m (pvalSeqLength r)) 0)).map (fun i => .vInt i)

/-- `ExcelExportTool.execute` (src/excel_tool.py lines 53-102): reads
`data` (default empty list), returns a failure dict when `data` is falsy,
otherwise builds a DataFrame, writes the file, and returns a success dict
with the download location, the exported row count, and the columns. The
DataFrame sizing fact used here is that `len(pd.DataFrame(rows))` equals
`len(rows)` for a list of records. A non-list truthy `data` makes the
DataFrame constructor raise, which the source catches into a failure dict
(the embedded message is a fixed stand-in for the interpolated one); the
file write itself is external and modelled as succeeding. A non-string
`filename` argument is outside the declared schema and modelled by the
default. -/
def excelExportExecute (args : Args) : PVal :=
  let data := (argsGet args "data").getD (.vList [])
  let filename := match argsGet args "filename" with
    | some (.vStr s) => s
    | _ => excelDefaultFilename
  if !(pyTruthy data) then
    .vDict [("success", .vBool false), ("message", .vStr "No data provided to export")]
  else
    match data with
    | .vList rows =>
      .vDict [("success", .vBool true),
              ("message", .vStr "Data exported successfully to Excel. Download your file using the link below."),
              ("download_url", .vStr (excelApiBaseUrl ++ "/download/" ++ filename ++ ".xlsx")),
              ("filename", .vStr (filename ++ ".xlsx")),
              ("rows_exported", .vInt rows.length),
              ("columns", .vList (pandasColumns rows))]
    | _ =>
      .vDict [("success", .vBool false),
              ("message", .vStr "Error exporting to Excel: DataFrame construction failed")]

/-- The parameter descriptors of `ExcelExportTool.get_parameters`
(src/excel_tool.py lines 28-51): `data` is the only required one. -/
def excelParams : List ParamSpec :=
  [{ name := "data", ptype := "array",
     text := "Array of data objects/records to export. Each object should have consistent keys/columns.",
     required := true },
   { name := "filename", ptype := "string",
     text := "Name for the Excel file (without extension)", required := false },
   { name := "sheet_name", ptype := "string",
     text := "Name for the worksheet/sheet in the Excel file", required := false }]

/-- The registered `ExportToExcel` tool. Its executor never raises (the
source catches all its exceptions into a returned dict) and does not touch
the database cursor. -/
def excelTool : Tool :=
  { name := "ExportToExcel", params := excelParams,
    exec := fun args desc => .ok (excelExportExecute args, desc) }

/-- Structural stand-in for the string `AIAgent._format_results` returns:
`sentinel` is the fixed "No results found.", `jsonDict` is
`json.dumps(dict, ...)`, `strVal` is `str(value)`, and `jsonRecords` is
`json.dumps` of the converted row list. Distinct constructors and
arguments correspond to the serializer applied to distinct inputs. -/
inductive FormatOut where
  | sentinel
  | jsonDict (kvs : List (String × PVal))
  | strVal (v : PVal)
  | jsonRecords (rows : List PVal)
deriving Repr

/-- One row conversion inside `AIAgent._format_results` (src/agent.py
lines 217-224): a row carrying a `cursor_description` attribute (a pyodbc
row) becomes a dict zipping its column names with its cells; any other
row is passed to `list(...)`, which yields the elements of a list or of a
row without column metadata, the keys of a dict, the characters of a
string, and raises TypeError (modelled as `none`) on non-iterable
values. -/
def formatRow : PVal → Option PVal
  | .vRow cells (some cols) => some (.vDict (cols.zip cells))
  | .vRow cells none => some (.vList cells)
  | .vList xs => some (.vList xs)
  | .vDict kvs => some (.vList (kvs.map (fun kv => .vStr kv.fst)))
  | .vStr s => some (.vList (s.toList.map (fun c => .vStr c.toString)))
  | _ => none

/-- `AIAgent._format_results` (src/agent.py lines 202-226): a falsy result
gives the fixed sentinel, a dict is serialized directly, a non-list is
stringified, and a list is converted row by row via `formatRow`; a row
conversion raising TypeError makes the whole call raise (`none`). -/
def formatResults (results : PVal) : Option FormatOut :=
  if !(pyTruthy results) then some .sentinel
  else
    match results with
    | .vDict kvs => some (.jsonDict kvs)
    | .vList xs => (xs.mapM formatRow).map .jsonRecords
    | v => some (.strVal v)

/-- One row conversion of the caching block (src/agent.py lines 133-146):
an iterable non-string non-dict row (a list or a database row) becomes a
dict zipping the connection cursor's current column names with the row
when that description is set, and a positional list otherwise; a dict row
is kept as is; any other value is kept as is. Note the column names come
from the shared connection cursor, not from the row itself. -/
def cacheRow (desc : Option (List String)) : PVal → PVal
  | .vList xs =>
    (match desc with
     | some cols => .vDict (cols.zip xs)
     | none => .vList xs)
  | .vRow cells _ =>
    (match desc with
     | some cols => .vDict (cols.zip cells)
     | none => .vList cells)
  | .vDict kvs => .vDict kvs
  | v => v

/-- One requested tool invocation decoded from the model response
(`tool_call` in src/agent.py): invocation id, tool name, and the decoded
JSON argument mapping. -/
structure ToolCall where
  id : String
  name : String
  args : Args
deriving Repr

/-- Content of a tool-result message: either the formatted result or the
error text built in the per-invocation exception handler (src/agent.py
line 178). -/
inductive ToolMsgContent where
  | formatted (f : FormatOut)
  | errText (s : String)
deriving Repr

/-- A conversation-history entry. Assistant turns that request tools keep
the whole response object (src/agent.py line 106); tool results carry the
id of the invocation they answer (line 182-187). -/
inductive Message where
  | system (content : String)
  | user (content : String)
  | assistant (content : String)
  | assistantToolCalls (content : String) (calls : List ToolCall)
  | toolResult (toolCallId : String) (toolName : String) (content : ToolMsgContent)
deriving Repr

/-- The mutable state of one `AIAgent` session (src/agent.py
`AIAgent.__init__`): the biller id, the tool registry built for the
session, the conversation history, the `last_query_results` cache, the
connection cursor description, and the connection liveness flag
(`connect` on construction, `disconnect` on teardown). -/
structure AIAgent where
  billerId : Int
  registry : ToolRegistry
  conversationHistory : List Message
  lastQueryResults : List PVal
  cursorDescription : Option (List String)
  dbConnected : Bool

/-- The caching block of the chat loop (src/agent.py lines 128-149): when
the dispatched tool returned a non-empty list and is not `ExportToExcel`,
the rows are converted via `cacheRow` (using the connection cursor's
current description) and overwrite `last_query_results`; every other
result shape leaves the cache untouched. -/
def cacheUpdate (a : AIAgent) (toolName : String) (results : PVal) : AIAgent :=
  match results with
  | .vList xs =>
    if !xs.isEmpty && toolName != "ExportToExcel" then
      { a with lastQueryResults := xs.map (cacheRow a.cursorDescription) }
    else a
  | _ => a

/-- The export fallback block (src/agent.py lines 151-163): for an
`ExportToExcel` invocation, when the supplied `data` argument is falsy and
the cache is non-empty, or is a list shorter than the non-empty cache, the
`data` argument is overwritten with the full cached record list and the
tool is dispatched again, its result replacing the first one; in every
other case the original result passes through untouched. A raise from the
re-dispatch propagates (it happens inside the same try block). -/
def exportFallback (a : AIAgent) (toolName : String) (args : Args) (results : PVal) :
    Except String PVal × AIAgent :=
  if toolName == "ExportToExcel" then
    let dataArg := (argsGet args "data").getD (.vList [])
    if !(pyTruthy dataArg) && !a.lastQueryResults.isEmpty then
      let args2 := argsSet args "data" (.vList a.lastQueryResults)
      match a.registry.execute toolName args2 a.cursorDescription with
      | .error e => (.error e, a)
      | .ok (r, d) => (.ok r, { a with cursorDescription := d })
    else
      match dataArg with
      | .vList ds =>
        if !a.lastQueryResults.isEmpty && ds.length < a.lastQueryResults.length then
          let args2 := argsSet args "data" (.vList a.lastQueryResults)
          match a.registry.execute toolName args2 a.cursorDescription with
          | .error e => (.error e, a)
          | .ok (r, d) => (.ok r, { a with cursorDescription := d })
        else (.ok results, a)
      | _ => (.ok results, a)
  else (.ok results, a)

/-- The body of the per-invocation try block (src/agent.py lines
121-175): dispatch through the registry, update the cache, apply the
export fallback, format the final result. Returns the formatted result or
the raised exception, together with the agent state as mutated up to the
point of the raise (Python mutations before an exception persist). -/
def invocationTry (a : AIAgent) (call : ToolCall) : Except String FormatOut × AIAgent :=
  match a.registry.execute call.name call.args a.cursorDescription with
  | .error e => (.error e, a)
  | .ok (results, desc1) =>
    let a1 := { a with cursorDescription := desc1 }
    let a2 := cacheUpdate a1 call.name results
    match exportFallback a2 call.name call.args results with
    | (.error e, a3) => (.error e, a3)
    | (.ok results2, a3) =>
      match formatResults results2 with
      | none => (.error "TypeError: object is not iterable", a3)
      | some f => (.ok f, a3)

/-- Result of handling one requested invocation: the updated agent (with
the tool-result message appended), the appended message itself, and
whether this invocation set `any_success`. -/
structure InvocationOutcome where
  agent : AIAgent
  message : Message
  success : Bool

/-- Handling of one requested invocation inside a round (src/agent.py
lines 110-187): run the try block; on success append the formatted result
as a tool message keyed to the invocation id and mark progress; on an
exception append an error tool message keyed to the same id and do not
mark progress. -/
def processInvocation (a : AIAgent) (call : ToolCall) : InvocationOutcome :=
  match invocationTry a call with
  | (.ok f, a2) =>
    let msg := Message.toolResult call.id call.name (.formatted f)
    { agent := { a2 with conversationHistory := a2.conversationHistory ++ [msg] },
      message := msg, success := true }
  | (.error e, a2) =>
    let msg := Message.toolResult call.id call.name
      (.errText ("Error executing " ++ call.name ++ ": " ++ e))
    { agent := { a2 with conversationHistory := a2.conversationHistory ++ [msg] },
      message := msg, success := false }

/-- Outcome of one round of invocations: the updated agent and the
`any_success` flag. -/
structure RoundOutcome where
  agent : AIAgent
  anySuccess : Bool

/-- The `for tool_call in tool_calls` loop of one round (src/agent.py
lines 109-187): invocations are handled one at a time in request order,
each seeing the state left by the previous one; `any_success` starts
false and is the disjunction of the per-invocation flags. -/
def processRound (a : AIAgent) : List ToolCall → RoundOutcome
  | [] => { agent := a, anySuccess := false }
  | c :: rest =>
    let out := processInvocation a c
    let r := processRound out.agent rest
    { agent := r.agent, anySuccess := out.success || r.anySuccess }

/-- One response of the external model (src/agent.py line 81-90): its text
content and the (possibly empty) list of requested tool invocations. An
empty request list is the `if not tool_calls` final-answer case. -/
structure ModelResponse where
  content : String
  toolCalls : List ToolCall
deriving Repr

/-- How one call to `AIAgent.chat` ended, by return site: the final
assistant answer (line 100), the fixed no-progress message (line 194), the
fixed iteration-limit message (line 200), or an exception propagating out
of `chat`. -/
inductive ChatResult where
  | finalAnswer (content : String)
  | noProgress
  | iterationLimit
  | raisedError (msg : String)
deriving Repr, DecidableEq

/-- The fixed user-facing string returned at the `ChatResult.noProgress`
return site (src/agent.py line 194). -/
def noProgressMessage : String :=
  "I encountered errors while processing your request. Please try rephrasing your question."

/-- Observable outcome of one `chat` call: how it ended, how many model
queries it made, and the final agent state. -/
structure ChatOutcome where
  result : ChatResult
  modelQueries : Nat
  agent : AIAgent

/-- The dynamic iteration budget (src/agent.py line 70):
`min(10, max(5, len(functions) // 4))`, where `len(functions)` is the
number of registered tools. -/
def maxIterationsFor (toolCount : Nat) : Nat :=
  min 10 (max 5 (toolCount / 4))

/-- The `while iteration < max_iterations` loop of `AIAgent.chat`
(src/agent.py lines 76-197), driven by a script of model-call outcomes
(`none` models the completion call raising). `counter` is the
`consecutive_no_progress` variable carried across iterations; note that
line 103 resets it to zero in every round that has tool calls, before the
increment at line 191. `lastResponse` is the Python local `response`,
which keeps its previous binding when the completion call raises (line
87-88 catch and print only); when it was never bound, referencing it
raises NameError out of `chat`. Each loop entry consumes one script entry
as one model query; an exhausted script counts as a raising call. -/
def chatLoop (fuel : Nat) (script : List (Option ModelResponse)) (counter : Nat)
    (lastResponse : Option ModelResponse) (a : AIAgent) : ChatOutcome :=
  match fuel with
  | 0 => { result := .iterationLimit, modelQueries := 0, agent := a }
  | Nat.succ fuel2 =>
    let step : Option ModelResponse × List (Option ModelResponse) :=
      match script with
      | [] => (none, [])
      | o :: rest => (o, rest)
    let responseVar : Option ModelResponse :=
      match step.fst with
      | some r => some r
      | none => lastResponse
    match responseVar with
    | none =>
      { result := .raisedError "NameError: name response is not defined",
        modelQueries := 1, agent := a }
    | some resp =>
      if resp.toolCalls.isEmpty then
        { result := .finalAnswer resp.content, modelQueries := 1,
          agent := { a with
            conversationHistory := a.conversationHistory ++ [.assistant resp.content] } }
      else
        let counter1 := 0
        let a1 := { a with conversationHistory :=
          a.conversationHistory ++ [.assistantToolCalls resp.content resp.toolCalls] }
        let r := processRound a1 resp.toolCalls
        if !r.anySuccess then
          let counter2 := counter1 + 1
          if counter2 ≥ 3 then
            { result := .noProgress, modelQueries := 1, agent := r.agent }
          else
            let rec1 := chatLoop fuel2 step.snd counter2 responseVar r.agent
            { result := rec1.result, modelQueries := 1 + rec1.modelQueries,
              agent := rec1.agent }
        else
          let rec1 := chatLoop fuel2 step.snd counter1 responseVar r.agent
          { result := rec1.result, modelQueries := 1 + rec1.modelQueries,
            agent := rec1.agent }

/-- `AIAgent.chat` (src/agent.py lines 49-200): append the user message,
compute the iteration budget from the registered tool count, and run the
loop with the no-progress counter at zero and the `response` local still
unbound. -/
def AIAgent.chat (a : AIAgent) (script : List (Option ModelResponse))
    (userMessage : String) : ChatOutcome :=
  let a1 := { a with conversationHistory := a.conversationHistory ++ [.user userMessage] }
  chatLoop (maxIterationsFor a.registry.tools.length) script 0 none a1

/-- `AIAgent.reset_conversation` (src/agent.py lines 228-230): the
conversation history is replaced by the empty list; no other field is
touched. -/
def AIAgent.resetConversation (a : AIAgent) : AIAgent :=
  { a with conversationHistory := [] }

/-- `AIAgent.add_system_message` (src/agent.py lines 232-237): inserts a
system message at position 0. -/
def AIAgent.addSystemMessage (a : AIAgent) (m : String) : AIAgent :=
  { a with conversationHistory := Message.system m :: a.conversationHistory }

/-- A session with an empty registry, used to exercise dispatch failures
(every requested tool is then unknown). -/
def emptyAgent : AIAgent :=
  { billerId := 0, registry := ⟨[]⟩, conversationHistory := [],
    lastQueryResults := [], cursorDescription := none, dbConnected := true }

/-- A script of five rounds that each request one invocation of an
unregistered tool, so every round fails entirely. -/
def failScript : List (Option ModelResponse) :=
  List.replicate 5
    (some { content := "", toolCalls := [{ id := "id1", name := "Nope", args := [] }] })

/-- A trivial tool whose executor returns the scalar 1. -/
def pingTool : Tool :=
  { name := "Ping", params := [], exec := fun _ d => .ok (.vInt 1, d) }

/-- A session whose registry holds only `pingTool`. -/
def pingAgent : AIAgent :=
  { billerId := 0, registry := ⟨[("Ping", pingTool)]⟩, conversationHistory := [],
    lastQueryResults := [], cursorDescription := none, dbConnected := true }

/-- A model script whose second completion call raises: round 1 requests a
successful tool call, round 2 is a model failure, round 3 returns a plain
text answer. -/
def staleScript : List (Option ModelResponse) :=
  [some { content := "", toolCalls := [{ id := "i1", name := "Ping", args := [] }] },
   none,
   some { content := "hi", toolCalls := [] }]

/-- A tool with one required parameter, used to exercise parameter
validation. -/
def reqTool : Tool :=
  { name := "NeedsId",
    params := [{ name := "CustomerID", ptype := "integer",
                 text := "The unique customer ID", required := true },
               { name := "BillerUserID", ptype := "integer",
                 text := "The unique biller user ID", required := false }],
    exec := fun _ d => .ok (.vInt 0, d) }

/-- A registry holding only `reqTool`. -/
def reqRegistry : ToolRegistry := ⟨[("NeedsId", reqTool)]⟩

/-- A tool returning a list containing one dict record. -/
def dictRowsTool : Tool :=
  { name := "GetDictRows", params := [],
    exec := fun _ d => .ok (.vList [.vDict [("a", .vInt 1)]], d) }

/-- A session whose registry holds only `dictRowsTool`. -/
def dictRowsAgent : AIAgent :=
  { billerId := 0, registry := ⟨[("GetDictRows", dictRowsTool)]⟩, conversationHistory := [],
    lastQueryResults := [], cursorDescription := none, dbConnected := true }

/-- A tool returning a list containing one bare integer (a non-iterable
row, on which the formatting loop raises TypeError). -/
def scalarListTool : Tool :=
  { name := "GetScalarList", params := [],
    exec := fun _ d => .ok (.vList [.vInt 5], d) }

/-- A session whose registry holds only `scalarListTool`. -/
def scalarListAgent : AIAgent :=
  { billerId := 0, registry := ⟨[("GetScalarList", scalarListTool)]⟩, conversationHistory := [],
    lastQueryResults := [], cursorDescription := none, dbConnected := true }

/-- A tool returning an empty result list. -/
def emptyRowsTool : Tool :=
  { name := "GetNothing", params := [], exec := fun _ d => .ok (.vList [], d) }

/-- A session whose registry holds only `emptyRowsTool`, with one record
already cached. -/
def emptyRowsAgent : AIAgent :=
  { billerId := 0, registry := ⟨[("GetNothing", emptyRowsTool)]⟩, conversationHistory := [],
    lastQueryResults := [.vDict [("x", .vInt 1)]], cursorDescription := none,
    dbConnected := true }

/-- A session holding the export tool with an empty result cache. -/
def exportAgentEmptyCache : AIAgent :=
  { billerId := 0, registry := ⟨[("ExportToExcel", excelTool)]⟩, conversationHistory := [],
    lastQueryResults := [], cursorDescription := none, dbConnected := true }

/-- A session holding the export tool with one cached record. -/
def exportAgentCached : AIAgent :=
  { billerId := 0, registry := ⟨[("ExportToExcel", excelTool)]⟩, conversationHistory := [],
    lastQueryResults := [.vDict [("a", .vInt 1)]], cursorDescription := none,
    dbConnected := true }

/-- Each loop entry consumes at most one model query, so one `chat` call
never makes more queries than its fuel. -/
theorem chatLoop_queries_le (fuel : Nat) (script : List (Option ModelResponse))
    (counter : Nat) (lastResp : Option ModelResponse) (a : AIAgent) :
    (chatLoop fuel script counter lastResp a).modelQueries ≤ fuel := by
  induction fuel generalizing script counter lastResp a with
  | zero => exact le_rfl
  | succ n ih =>
    unfold chatLoop
    dsimp only
    split
    · exact Nat.le_add_left 1 n
    · split
      · exact Nat.le_add_left 1 n
      · split
        · split
          · exact Nat.le_add_left 1 n
          · dsimp only
            rw [Nat.add_comm 1]
            exact Nat.succ_le_succ (ih _ _ _ _)
        · dsimp only
          rw [Nat.add_comm 1]
          exact Nat.succ_le_succ (ih _ _ _ _)

/-- The no-progress return site is unreachable: the counter is reset to
zero in every round that has tool calls before being incremented once, so
the threshold test compares 1 against 3 and never fires. -/
theorem chatLoop_ne_noProgress (fuel : Nat) (script : List (Option ModelResponse))
    (counter : Nat) (lastResp : Option ModelResponse) (a : AIAgent) :
    (chatLoop fuel script counter lastResp a).result ≠ ChatResult.noProgress := by
  induction fuel generalizing script counter lastResp a with
  | zero => simp [chatLoop]
  | succ n ih =>
    unfold chatLoop
    dsimp only
    split
    · simp
    · split
      · simp
      · split
        · split
          · next h => omega
          · exact ih _ _ _ _
        · exact ih _ _ _ _

theorem argsContains_of_get (args : Args) (k : String) (v : PVal)
    (h : argsGet args k = some v) : argsContains args k = true := by
  unfold argsGet at h
  rcases Option.map_eq_some'.mp h with ⟨kv, hfind, _⟩
  have hm := List.mem_of_find?_eq_some hfind
  have hp := List.find?_some hfind
  unfold argsContains
  rw [List.any_eq_true]
  exact ⟨kv, hm, hp⟩

theorem argsGet_map_set (args : Args) (k : String) (v : PVal)
    (h : argsContains args k = true) :
    argsGet (args.map (fun kv => if kv.fst == k then (k, v) else kv)) k = some v := by
  induction args with
  | nil => simp [argsContains] at h
  | cons kv rest ih =>
    by_cases hk : (kv.fst == k) = true
    · have hhead : (if kv.fst == k then (k, v) else kv) = (k, v) := if_pos hk
      unfold argsGet
      rw [List.map_cons, hhead]
      simp [List.find?_cons, beq_self_eq_true]
    · have hk2 : (kv.fst == k) = false := by simpa using hk
      have hhead : (if kv.fst == k then (k, v) else kv) = kv := if_neg hk
      have h2 : argsContains rest k = true := by
        unfold argsContains at h ⊢
        rcases List.any_eq_true.mp h with ⟨x, hx, hpx⟩
        rcases List.mem_cons.mp hx with hx1 | hx2
        · exact absurd (hx1 ▸ hpx) hk
        · exact List.any_eq_true.mpr ⟨x, hx2, hpx⟩
      have h3 := ih h2
      unfold argsGet at h3 ⊢
      rw [List.map_cons, hhead]
      simp only [List.find?_cons, hk2]
      exact h3

theorem argsGet_argsSet_self (args : Args) (k : String) (v : PVal)
    (h : argsContains args k = true) :
    argsGet (argsSet args k v) k = some v := by
  unfold argsSet
  rw [if_pos h]
  exact argsGet_map_set args k v h

theorem exportFallback_lastQueryResults (a : AIAgent) (n : String) (args : Args) (r : PVal) :
    (exportFallback a n args r).snd.lastQueryResults = a.lastQueryResults := by
  unfold exportFallback
  dsimp only
  repeat' split
  all_goals rfl

theorem exportFallback_not_export (a : AIAgent) (n : String) (args : Args) (r : PVal)
    (h : (n == "ExportToExcel") = false) :
    exportFallback a n args r = (.ok r, a) := by
  unfold exportFallback
  simp [h]

/-- Claim C1 (code-bug evidence): the claimed behavior — three consecutive
rounds with zero successful tool invocations terminate the loop with the
fixed no-progress message and stop model queries — never happens. The
counter reset at src/agent.py line 103 runs in every round that has tool
calls, before the single increment at line 191, so the threshold test
compares 1 with 3 and the no-progress return site is unreachable: no chat
call ever ends at it. Concretely, on a script of five consecutive rounds
whose only invocation always fails, the loop performs all 5 budgeted model
queries (not 3) and returns the iteration-limit message instead. -/
theorem c1_noProgress_unreachable :
    (∀ (a : AIAgent) (script : List (Option ModelResponse)) (msg : String),
       (AIAgent.chat a script msg).result ≠ ChatResult.noProgress) ∧
    (AIAgent.chat emptyAgent failScript "export all invoices").result =
      ChatResult.iterationLimit ∧
    (AIAgent.chat emptyAgent failScript "export all invoices").modelQueries = 5 := by
  refine ⟨?_, rfl, rfl⟩
  intro a script msg
  exact chatLoop_ne_noProgress _ _ _ _ _

/-- Claim C3: in any chat call the number of model queries never exceeds
the iteration budget; the budget equals the registered tool count
floor-divided by 4 and clamped into [5,10], so it lies within [5,10] for
any positive tool count; with 4 registered tools it is 5. -/
theorem c3_iteration_budget (a : AIAgent) (script : List (Option ModelResponse))
    (msg : String) :
    (AIAgent.chat a script msg).modelQueries ≤ maxIterationsFor a.registry.tools.length ∧
    maxIterationsFor a.registry.tools.length =
      min 10 (max 5 (a.registry.tools.length / 4)) ∧
    (1 ≤ a.registry.tools.length →
       5 ≤ maxIterationsFor a.registry.tools.length ∧
       maxIterationsFor a.registry.tools.length ≤ 10) ∧
    maxIterationsFor 4 = 5 := by
  refine ⟨chatLoop_queries_le _ _ _ _ _, rfl, ?_, rfl⟩
  intro _
  unfold maxIterationsFor
  exact ⟨le_min (by norm_num) (le_max_left 5 _), min_le_left _ _⟩

/-- Witness for C3 at a session with one registered tool. -/
theorem c3_iteration_budget_witness :
    (AIAgent.chat pingAgent [] "hello").modelQueries ≤
      maxIterationsFor pingAgent.registry.tools.length ∧
    1 ≤ pingAgent.registry.tools.length ∧
    5 ≤ maxIterationsFor pingAgent.registry.tools.length ∧
    maxIterationsFor pingAgent.registry.tools.length ≤ 10 :=
  ⟨(c3_iteration_budget pingAgent [] "hello").1,
   by decide,
   ((c3_iteration_budget pingAgent [] "hello").2.2.1 (by decide)).1,
   ((c3_iteration_budget pingAgent [] "hello").2.2.1 (by decide)).2⟩

/-- Claim C4: dispatching a registered tool when at least one required
parameter of its descriptor is absent from the argument mapping never
reaches the executor: the dispatch fails with the MissingParameter-shaped
ValueError naming the first missing required parameter in descriptor
order (the first match of the validation walk), and the error is the same
for every executor the tool could carry. -/
theorem c4_missing_required_parameter (r : ToolRegistry) (t : Tool) (toolName : String)
    (args : Args) (desc : Option (List String)) (p : ParamSpec)
    (hget : r.get toolName = some t)
    (hfind : t.params.find? (fun q => q.required && !(argsContains args q.name)) = some p) :
    r.execute toolName args desc = .error ("Missing required parameter: " ++ p.name) ∧
    ∀ (r2 : ToolRegistry)
      (f : Args → Option (List String) → Except String (PVal × Option (List String))),
      r2.get toolName = some { t with exec := f } →
      r2.execute toolName args desc = .error ("Missing required parameter: " ++ p.name) := by
  constructor
  · unfold ToolRegistry.execute
    rw [hget]
    dsimp only
    unfold validateParameters
    rw [hfind]
  · intro r2 f hget2
    unfold ToolRegistry.execute
    rw [hget2]
    dsimp only
    unfold validateParameters
    dsimp only
    rw [hfind]

/-- Witness for C4: dispatch of a tool whose required `CustomerID`
parameter is absent, under two different executors. -/
theorem c4_missing_required_parameter_witness :
    reqRegistry.execute "NeedsId" [] none =
      .error ("Missing required parameter: " ++ "CustomerID") ∧
    (⟨[("NeedsId", { reqTool with exec := fun _ d => .ok (.vNone, d) })]⟩ : ToolRegistry).execute
        "NeedsId" [] none = .error ("Missing required parameter: " ++ "CustomerID") := by
  have h := c4_missing_required_parameter reqRegistry reqTool "NeedsId" [] none
      ⟨"CustomerID", "integer", "The unique customer ID", true⟩ rfl rfl
  exact ⟨h.1, h.2 _ _ rfl⟩

/-- Claim C7: an invocation whose dispatch raises (tool not found, missing
required parameter, or executor failure) is caught per-invocation: an
error-describing tool-result message keyed to that invocation id is
appended to the conversation, progress is not marked, the agent state is
otherwise unchanged, and the remaining invocations of the round are
processed exactly as they would be from that state — the round, the loop
and the session are not aborted by the exception. -/
theorem c7_dispatch_failure_isolated (a : AIAgent) (call : ToolCall)
    (rest : List ToolCall) (e : String)
    (hdisp : a.registry.execute call.name call.args a.cursorDescription = .error e) :
    (processInvocation a call).message =
      Message.toolResult call.id call.name
        (.errText ("Error executing " ++ call.name ++ ": " ++ e)) ∧
    (processInvocation a call).success = false ∧
    (processInvocation a call).agent =
      { a with conversationHistory :=
          a.conversationHistory ++ [(processInvocation a call).message] } ∧
    processRound a (call :: rest) = processRound (processInvocation a call).agent rest := by
  have htry : invocationTry a call = (.error e, a) := by
    unfold invocationTry
    rw [hdisp]
  have hpi : processInvocation a call =
      { agent := { a with conversationHistory := a.conversationHistory ++
          [Message.toolResult call.id call.name
            (.errText ("Error executing " ++ call.name ++ ": " ++ e))] },
        message := Message.toolResult call.id call.name
          (.errText ("Error executing " ++ call.name ++ ": " ++ e)),
        success := false } := by
    unfold processInvocation
    rw [htry]
  refine ⟨by rw [hpi], by rw [hpi], by rw [hpi], ?_⟩
  have hcons : processRound a (call :: rest) =
      { agent := (processRound (processInvocation a call).agent rest).agent,
        anySuccess := (processInvocation a call).success ||
          (processRound (processInvocation a call).agent rest).anySuccess } := rfl
  rw [hcons, hpi]
  simp only [Bool.false_or]

/-- Witness for C7: a round of two invocations of an unregistered tool;
the first failure does not stop the second from being processed. -/
theorem c7_dispatch_failure_isolated_witness :
    (processInvocation emptyAgent ⟨"t1", "Nope", []⟩).success = false ∧
    (processInvocation emptyAgent ⟨"t1", "Nope", []⟩).message =
      Message.toolResult "t1" "Nope"
        (.errText ("Error executing " ++ "Nope" ++ ": " ++ ("Tool not found: " ++ "Nope"))) ∧
    processRound emptyAgent [⟨"t1", "Nope", []⟩, ⟨"t2", "Nope", []⟩] =
      processRound (processInvocation emptyAgent ⟨"t1", "Nope", []⟩).agent
        [⟨"t2", "Nope", []⟩] := by
  have h := c7_dispatch_failure_isolated emptyAgent ⟨"t1", "Nope", []⟩ [⟨"t2", "Nope", []⟩]
      ("Tool not found: " ++ "Nope") rfl
  exact ⟨h.2.1, h.1, h.2.2.2⟩

/-- Claim C8 counterexample: a chat call in which the second model
completion call raises still returns a normal final answer — the
exception is caught and printed, the stale first-round response object is
re-processed, and the loop continues to a successful third round — so a
model-call exception does not always end the chat call with a surfaced
error. -/
theorem c8_counterexample :
    staleScript[1]? = some none ∧
    (AIAgent.chat pingAgent staleScript "list my invoices").result =
      ChatResult.finalAnswer "hi" ∧
    (AIAgent.chat pingAgent staleScript "list my invoices").modelQueries = 3 :=
  ⟨rfl, rfl, rfl⟩

/-- Claim C8 (amended): when the model completion call raises on the first
round of a chat call — before any response object exists — dereferencing
the unbound response variable raises NameError out of `chat` after
exactly one model query, so that call surfaces an error and returns no
answer; when it raises on a later round, the previous response is
silently re-processed and the loop continues (see the counterexample). -/
theorem c8_first_round_model_failure (a : AIAgent) (rest : List (Option ModelResponse))
    (msg : String) :
    (AIAgent.chat a (none :: rest) msg).result =
      ChatResult.raisedError "NameError: name response is not defined" ∧
    (AIAgent.chat a (none :: rest) msg).modelQueries = 1 := by
  have h5 : 5 ≤ maxIterationsFor a.registry.tools.length :=
    le_min (by norm_num) (le_max_left 5 _)
  have hpos : maxIterationsFor a.registry.tools.length =
      (maxIterationsFor a.registry.tools.length - 1) + 1 := by omega
  unfold AIAgent.chat
  dsimp only
  rw [hpos]
  unfold chatLoop
  exact ⟨rfl, rfl⟩

/-- Claim C9: reset_conversation empties the message history (system
message included) and changes nothing else of the session: the
ResultCache, the tool registry, the biller id, the cursor state and the
database-connection liveness are untouched, so cached export data
survives a conversation reset. -/
theorem c9_reset_conversation_frame (a : AIAgent) :
    a.resetConversation.conversationHistory = ([] : List Message) ∧
    a.resetConversation.lastQueryResults = a.lastQueryResults ∧
    a.resetConversation.registry = a.registry ∧
    a.resetConversation.billerId = a.billerId ∧
    a.resetConversation.cursorDescription = a.cursorDescription ∧
    a.resetConversation.dbConnected = a.dbConnected :=
  ⟨rfl, rfl, rfl, rfl, rfl, rfl⟩

/-- The result cache after one invocation is determined by the dispatch
outcome alone: the export fallback and the formatting step never touch
it. -/
theorem processInvocation_lastQueryResults (a : AIAgent) (call : ToolCall) :
    (processInvocation a call).agent.lastQueryResults =
      (match a.registry.execute call.name call.args a.cursorDescription with
       | .error _ => a.lastQueryResults
       | .ok (results, desc1) =>
         (cacheUpdate { a with cursorDescription := desc1 } call.name results).lastQueryResults) := by
  unfold processInvocation invocationTry
  cases hd : a.registry.execute call.name call.args a.cursorDescription with
  | error e => rfl
  | ok rd =>
    rcases rd with ⟨results, desc1⟩
    dsimp only
    have hf := exportFallback_lastQueryResults
      (cacheUpdate { a with cursorDescription := desc1 } call.name results)
      call.name call.args results
    rcases hfb : exportFallback (cacheUpdate { a with cursorDescription := desc1 } call.name results)
        call.name call.args results with ⟨res3, a3⟩
    rw [hfb] at hf
    dsimp only at hf
    cases res3 with
    | error e => exact hf
    | ok results2 =>
      dsimp only
      cases hfr : formatResults results2 with
      | none => exact hf
      | some f => exact hf

/-- Claim C5: in a chat round, the ResultCache is overwritten exactly when
a tool other than ExportToExcel returns a list with at least one record
(and then holds those records converted row by row with the connection
cursor columns); a dict result is never stored, an empty list, a non-list
result or a raising dispatch leaves the cache unchanged, and an
ExportToExcel invocation never writes the cache. -/
theorem c5_cache_overwrite_exactly (a : AIAgent) (call : ToolCall) :
    (∀ xs desc1,
       a.registry.execute call.name call.args a.cursorDescription = .ok (.vList xs, desc1) →
       xs ≠ [] → call.name ≠ "ExportToExcel" →
       (processInvocation a call).agent.lastQueryResults = xs.map (cacheRow desc1)) ∧
    (∀ kvs desc1,
       a.registry.execute call.name call.args a.cursorDescription = .ok (.vDict kvs, desc1) →
       (processInvocation a call).agent.lastQueryResults = a.lastQueryResults) ∧
    (∀ v desc1,
       a.registry.execute call.name call.args a.cursorDescription = .ok (v, desc1) →
       (∀ xs, v ≠ PVal.vList xs) →
       (processInvocation a call).agent.lastQueryResults = a.lastQueryResults) ∧
    (∀ desc1,
       a.registry.execute call.name call.args a.cursorDescription = .ok (.vList [], desc1) →
       (processInvocation a call).agent.lastQueryResults = a.lastQueryResults) ∧
    (∀ e,
       a.registry.execute call.name call.args a.cursorDescription = .error e →
       (processInvocation a call).agent.lastQueryResults = a.lastQueryResults) ∧
    (call.name = "ExportToExcel" →
       (processInvocation a call).agent.lastQueryResults = a.lastQueryResults) := by
  refine ⟨?_, ?_, ?_, ?_, ?_, ?_⟩
  · intro xs desc1 hd hxs hname
    rw [processInvocation_lastQueryResults, hd]
    unfold cacheUpdate
    have h1 : xs.isEmpty = false := by
      rw [List.isEmpty_eq_false]; exact hxs
    have h2 : (call.name == "ExportToExcel") = false := by
      exact beq_eq_false_iff_ne.mpr hname
    simp [h1, h2, bne]
  · intro kvs desc1 hd
    rw [processInvocation_lastQueryResults, hd]
    rfl
  · intro v desc1 hd hv
    rw [processInvocation_lastQueryResults, hd]
    cases v with
    | vList xs => exact absurd rfl (hv xs)
    | vNone => rfl
    | vBool b => rfl
    | vInt n => rfl
    | vStr s => rfl
    | vDict kvs => rfl
    | vRow cells cd => rfl
  · intro desc1 hd
    rw [processInvocation_lastQueryResults, hd]
    rfl
  · intro e hd
    rw [processInvocation_lastQueryResults, hd]
  · intro hname
    rw [processInvocation_lastQueryResults]
    cases hd : a.registry.execute call.name call.args a.cursorDescription with
    | error e => rfl
    | ok rd =>
      rcases rd with ⟨results, desc1⟩
      unfold cacheUpdate
      cases results with
      | vList xs =>
        have h2 : (call.name == "ExportToExcel") = true := by
          rw [hname]
          exact beq_self_eq_true _
        simp [h2, bne]
      | vNone => rfl
      | vBool b => rfl
      | vInt n => rfl
      | vStr s => rfl
      | vDict kvs => rfl
      | vRow cells cd => rfl

/-- Witness for C5: a dict-row result overwrites the cache; a failing
dispatch leaves it unchanged. -/
theorem c5_cache_overwrite_exactly_witness :
    (processInvocation dictRowsAgent ⟨"c5w", "GetDictRows", []⟩).agent.lastQueryResults =
      ([PVal.vDict [("a", PVal.vInt 1)]].map (cacheRow none)) ∧
    (processInvocation emptyAgent ⟨"c5w2", "Nope", []⟩).agent.lastQueryResults =
      emptyAgent.lastQueryResults :=
  ⟨(c5_cache_overwrite_exactly dictRowsAgent ⟨"c5w", "GetDictRows", []⟩).1
      [PVal.vDict [("a", PVal.vInt 1)]] none rfl (by simp) (by decide),
   (c5_cache_overwrite_exactly emptyAgent ⟨"c5w2", "Nope", []⟩).2.2.2.2.1
      ("Tool not found: " ++ "Nope") rfl⟩

/-- Claim C10 counterexample: a dispatch that returns normally (a list
containing a bare integer) is still not counted as successful, because
the formatting step raises TypeError inside the same try block — so
success is not equivalent to the dispatch alone returning without
raising. -/
theorem c10_counterexample :
    scalarListAgent.registry.execute "GetScalarList" [] scalarListAgent.cursorDescription =
      .ok (.vList [.vInt 5], none) ∧
    (processInvocation scalarListAgent ⟨"x1", "GetScalarList", []⟩).success = false ∧
    (processInvocation scalarListAgent ⟨"x1", "GetScalarList", []⟩).message =
      Message.toolResult "x1" "GetScalarList"
        (.errText ("Error executing " ++ "GetScalarList" ++ ": " ++
          "TypeError: object is not iterable")) :=
  ⟨rfl, rfl, rfl⟩

/-- Claim C10 (amended): an invocation is counted as successful (sets the
round progress flag) exactly when the whole per-invocation try block —
dispatch, any export-fallback re-dispatch, and result formatting —
returns without raising; a returned value that itself reports failure
still counts, e.g. ExportToExcel handed an empty data list with an empty
cache returns its success-false dict and is still marked successful. -/
theorem c10_success_iff_no_raise :
    (∀ (a : AIAgent) (call : ToolCall),
       (processInvocation a call).success = true ↔
         ∃ f, (invocationTry a call).fst = .ok f) ∧
    (∀ (a : AIAgent) (cid : String),
       a.registry.get "ExportToExcel" = some excelTool →
       a.lastQueryResults = [] →
       (processInvocation a ⟨cid, "ExportToExcel", [("data", .vList [])]⟩).success = true ∧
       (processInvocation a ⟨cid, "ExportToExcel", [("data", .vList [])]⟩).message =
         Message.toolResult cid "ExportToExcel"
           (.formatted (.jsonDict [("success", .vBool false),
                                   ("message", .vStr "No data provided to export")]))) := by
  constructor
  · intro a call
    rcases h : invocationTry a call with ⟨res, a2⟩
    unfold processInvocation
    rw [h]
    cases res with
    | ok f =>
      dsimp only
      constructor
      · intro _
        exact ⟨f, rfl⟩
      · intro _
        rfl
    | error e =>
      dsimp only
      constructor
      · intro hfalse
        exact Bool.noConfusion hfalse
      · rintro ⟨f, hf⟩
        exact Except.noConfusion hf
  · intro a cid hreg hcache
    have hdisp : a.registry.execute "ExportToExcel" [("data", PVal.vList [])]
        a.cursorDescription =
        .ok (.vDict [("success", .vBool false),
                     ("message", .vStr "No data provided to export")],
             a.cursorDescription) := by
      unfold ToolRegistry.execute
      rw [hreg]
      rfl
    have hempty : a.lastQueryResults.isEmpty = true := by
      rw [hcache]
      rfl
    have htry : invocationTry a ⟨cid, "ExportToExcel", [("data", PVal.vList [])]⟩ =
        (.ok (.jsonDict [("success", .vBool false),
                         ("message", .vStr "No data provided to export")]), a) := by
      unfold invocationTry
      dsimp only
      rw [hdisp]
      dsimp only
      unfold cacheUpdate exportFallback
      dsimp only
      simp only [hempty]
      rfl
    unfold processInvocation
    rw [htry]
    exact ⟨rfl, rfl⟩

/-- Witness for C10: the equivalence at a concrete invocation and the
semantic-failure export example at a concrete session. -/
theorem c10_success_iff_no_raise_witness :
    ((processInvocation scalarListAgent ⟨"w1", "GetScalarList", []⟩).success = true ↔
       ∃ f, (invocationTry scalarListAgent ⟨"w1", "GetScalarList", []⟩).fst = .ok f) ∧
    (processInvocation exportAgentEmptyCache
        ⟨"w2", "ExportToExcel", [("data", .vList [])]⟩).success = true ∧
    (processInvocation exportAgentEmptyCache
        ⟨"w2", "ExportToExcel", [("data", .vList [])]⟩).message =
      Message.toolResult "w2" "ExportToExcel"
        (.formatted (.jsonDict [("success", .vBool false),
                                ("message", .vStr "No data provided to export")])) :=
  ⟨c10_success_iff_no_raise.1 scalarListAgent ⟨"w1", "GetScalarList", []⟩,
   (c10_success_iff_no_raise.2 exportAgentEmptyCache "w2" rfl rfl).1,
   (c10_success_iff_no_raise.2 exportAgentEmptyCache "w2" rfl rfl).2⟩

/-- Claim C2: in the export-fallback block, with the cache holding N >= 1
records and the ExportToExcel call supplying a data list of k records: if
k < N (including k = 0), the data argument is replaced by the full cached
record set and the tool is re-invoked, and the re-invocation reports
exactly N rows exported; if k >= N, the original result passes through
with no re-invocation and no state change. -/
theorem c2_export_fallback_completes (a : AIAgent) (args : Args) (ds : List PVal)
    (rinit : PVal)
    (hreg : a.registry.get "ExportToExcel" = some excelTool)
    (hN : 1 ≤ a.lastQueryResults.length)
    (hdata : argsGet args "data" = some (.vList ds)) :
    (ds.length < a.lastQueryResults.length →
       exportFallback a "ExportToExcel" args rinit =
         (.ok (excelExportExecute (argsSet args "data" (.vList a.lastQueryResults))), a) ∧
       dictGet (excelExportExecute (argsSet args "data" (.vList a.lastQueryResults)))
           "rows_exported" = some (.vInt (a.lastQueryResults.length : Int))) ∧
    (a.lastQueryResults.length ≤ ds.length →
       exportFallback a "ExportToExcel" args rinit = (.ok rinit, a)) := by
  have hne : a.lastQueryResults ≠ [] := by
    intro h0
    rw [h0] at hN
    exact absurd hN (by norm_num)
  have hcne : a.lastQueryResults.isEmpty = false := List.isEmpty_eq_false.mpr hne
  have hcontains : argsContains args "data" = true := argsContains_of_get args "data" _ hdata
  have hget2 : argsGet (argsSet args "data" (.vList a.lastQueryResults)) "data" =
      some (.vList a.lastQueryResults) :=
    argsGet_argsSet_self args "data" _ hcontains
  have hcontains2 : argsContains (argsSet args "data" (.vList a.lastQueryResults)) "data" = true :=
    argsContains_of_get _ "data" _ hget2
  have hvalid : validateParameters excelTool (argsSet args "data" (.vList a.lastQueryResults)) =
      .ok () := by
    simp [validateParameters, excelTool, excelParams, List.find?_cons, hcontains2]
  have hdisp2 : a.registry.execute "ExportToExcel"
      (argsSet args "data" (.vList a.lastQueryResults)) a.cursorDescription =
      .ok (excelExportExecute (argsSet args "data" (.vList a.lastQueryResults)),
           a.cursorDescription) := by
    unfold ToolRegistry.execute
    rw [hreg]
    dsimp only
    rw [hvalid]
    rfl
  have hrows : dictGet (excelExportExecute (argsSet args "data" (.vList a.lastQueryResults)))
      "rows_exported" = some (.vInt (a.lastQueryResults.length : Int)) := by
    unfold excelExportExecute
    rw [hget2]
    simp only [Option.getD_some]
    rw [show pyTruthy (PVal.vList a.lastQueryResults) = !a.lastQueryResults.isEmpty from rfl,
        hcne]
    rfl
  constructor
  · intro hlt
    refine ⟨?_, hrows⟩
    unfold exportFallback
    rw [hdata]
    simp only [beq_self_eq_true, if_true, Option.getD_some]
    by_cases hds0 : ds.isEmpty = true
    · rw [show pyTruthy (PVal.vList ds) = !ds.isEmpty from rfl, hds0, hdisp2]
      simp [hcne]
    · have hds0f : ds.isEmpty = false := by simpa using hds0
      rw [show pyTruthy (PVal.vList ds) = !ds.isEmpty from rfl, hds0f, hdisp2,
          decide_eq_true hlt]
      simp [hcne]
  · intro hge
    have hds_ne : ds ≠ [] := by
      intro h0
      rw [h0] at hge
      simp only [List.length_nil] at hge
      omega
    have hds0f : ds.isEmpty = false := List.isEmpty_eq_false.mpr hds_ne
    unfold exportFallback
    rw [hdata]
    simp only [beq_self_eq_true, if_true, Option.getD_some]
    rw [show pyTruthy (PVal.vList ds) = !ds.isEmpty from rfl, hds0f,
        decide_eq_false (by omega : ¬(ds.length < a.lastQueryResults.length))]
    simp [hcne]

/-- Witness for C2: with one cached record, an export call with an empty
data list is re-invoked on the cached record (1 row exported), and an
export call already carrying two records passes through unmodified. -/
theorem c2_export_fallback_completes_witness :
    exportFallback exportAgentCached "ExportToExcel" [("data", .vList [])] (.vDict []) =
      (.ok (excelExportExecute (argsSet [("data", .vList [])] "data"
          (.vList exportAgentCached.lastQueryResults))), exportAgentCached) ∧
    dictGet (excelExportExecute (argsSet [("data", .vList [])] "data"
        (.vList exportAgentCached.lastQueryResults))) "rows_exported" =
      some (.vInt (exportAgentCached.lastQueryResults.length : Int)) ∧
    exportFallback exportAgentCached "ExportToExcel"
        [("data", .vList [.vDict [("a", .vInt 1)], .vDict [("a", .vInt 2)]])] (.vDict []) =
      (.ok (.vDict []), exportAgentCached) := by
  have h1 := c2_export_fallback_completes exportAgentCached [("data", .vList [])] []
      (.vDict []) rfl (by decide) rfl
  have h2 := c2_export_fallback_completes exportAgentCached
      [("data", .vList [.vDict [("a", .vInt 1)], .vDict [("a", .vInt 2)]])]
      [.vDict [("a", .vInt 1)], .vDict [("a", .vInt 2)]] (.vDict []) rfl (by decide) rfl
  exact ⟨(h1.1 (by decide)).1, (h1.1 (by decide)).2, h2.2 (by decide)⟩

/-- For a non-export invocation whose dispatch returns a value the
formatter accepts, the appended message carries the formatted value and
the cache is whatever the caching block produced. -/
theorem processInvocation_ok_not_export (a : AIAgent) (call : ToolCall) (v : PVal)
    (desc1 : Option (List String)) (f : FormatOut)
    (hd : a.registry.execute call.name call.args a.cursorDescription = .ok (v, desc1))
    (hname : (call.name == "ExportToExcel") = false)
    (hfmt : formatResults v = some f) :
    (processInvocation a call).message =
      Message.toolResult call.id call.name (.formatted f) ∧
    (processInvocation a call).agent.lastQueryResults =
      (cacheUpdate { a with cursorDescription := desc1 } call.name v).lastQueryResults := by
  have htry : invocationTry a call =
      (.ok f, cacheUpdate { a with cursorDescription := desc1 } call.name v) := by
    unfold invocationTry
    rw [hd]
    dsimp only
    rw [exportFallback_not_export _ _ _ _ hname]
    dsimp only
    rw [hfmt]
  unfold processInvocation
  rw [htry]
  exact ⟨rfl, rfl⟩

/-- Claim C6 counterexample: a non-export tool returning one dict record
caches the dict itself but serializes the row as the positional list of
its keys — the payload record sequence and the cache contents are not the
same normalized sequence. -/
theorem c6_counterexample :
    (processInvocation dictRowsAgent ⟨"c6", "GetDictRows", []⟩).agent.lastQueryResults =
      [PVal.vDict [("a", PVal.vInt 1)]] ∧
    (processInvocation dictRowsAgent ⟨"c6", "GetDictRows", []⟩).message =
      Message.toolResult "c6" "GetDictRows"
        (.formatted (.jsonRecords [PVal.vList [PVal.vStr "a"]])) ∧
    ([PVal.vDict [("a", PVal.vInt 1)]] : List PVal) ≠ [PVal.vList [PVal.vStr "a"]] := by
  refine ⟨rfl, rfl, ?_⟩
  intro h
  injection h with h1 h2
  exact PVal.noConfusion h1

/-- Claim C6 (amended): the normalizer maps a falsy result to the fixed
sentinel with no cache update, serializes a dict directly, stringifies a
non-list non-dict value, and converts a list row by row — but the payload
and the cache use two different row conversions: the payload uses the
row's own column metadata (or a positional list, listing a dict row's
keys), while the cache keeps dict rows as records and converts other
iterable rows with the connection cursor's columns; the two conversions
agree on metadata-bearing rows and plain positional rows and always
disagree on dict rows. -/
theorem c6_result_normalization :
    (∀ v : PVal, pyTruthy v = false → formatResults v = some FormatOut.sentinel) ∧
    (∀ kvs, kvs ≠ [] → formatResults (.vDict kvs) = some (.jsonDict kvs)) ∧
    (∀ n : Int, n ≠ 0 → formatResults (.vInt n) = some (.strVal (.vInt n))) ∧
    (∀ (xs rs : List PVal), xs ≠ [] → xs.mapM formatRow = some rs →
       formatResults (.vList xs) = some (.jsonRecords rs)) ∧
    (∀ (a : AIAgent) (call : ToolCall) (v : PVal) (desc1 : Option (List String)),
       a.registry.execute call.name call.args a.cursorDescription = .ok (v, desc1) →
       pyTruthy v = false → call.name ≠ "ExportToExcel" →
       (processInvocation a call).agent.lastQueryResults = a.lastQueryResults ∧
       (processInvocation a call).message =
         Message.toolResult call.id call.name (.formatted FormatOut.sentinel)) ∧
    (∀ (a : AIAgent) (call : ToolCall) (xs : List PVal) (desc1 : Option (List String))
       (rs : List PVal),
       a.registry.execute call.name call.args a.cursorDescription = .ok (.vList xs, desc1) →
       xs ≠ [] → call.name ≠ "ExportToExcel" → xs.mapM formatRow = some rs →
       (processInvocation a call).message =
         Message.toolResult call.id call.name (.formatted (.jsonRecords rs)) ∧
       (processInvocation a call).agent.lastQueryResults = xs.map (cacheRow desc1)) ∧
    (∀ (cells : List PVal) (cols : List String),
       formatRow (.vRow cells (some cols)) =
         some (cacheRow (some cols) (.vRow cells (some cols)))) ∧
    (∀ cells : List PVal,
       formatRow (.vRow cells none) = some (cacheRow none (.vRow cells none))) ∧
    (∀ xs : List PVal, formatRow (.vList xs) = some (cacheRow none (.vList xs))) ∧
    (∀ (desc : Option (List String)) (kvs : List (String × PVal)),
       formatRow (.vDict kvs) ≠ some (cacheRow desc (.vDict kvs))) := by
  refine ⟨?_, ?_, ?_, ?_, ?_, ?_, ?_, ?_, ?_, ?_⟩
  · intro v h
    unfold formatResults
    rw [h]
    rfl
  · intro kvs h
    have hke : kvs.isEmpty = false := List.isEmpty_eq_false.mpr h
    unfold formatResults
    rw [show pyTruthy (PVal.vDict kvs) = !kvs.isEmpty from rfl, hke]
    rfl
  · intro n hn
    have hb : (n != 0) = true := bne_iff_ne.mpr hn
    unfold formatResults
    rw [show pyTruthy (PVal.vInt n) = (n != 0) from rfl, hb]
    rfl
  · intro xs rs hxs hmap
    have hxe : xs.isEmpty = false := List.isEmpty_eq_false.mpr hxs
    unfold formatResults
    rw [show pyTruthy (PVal.vList xs) = !xs.isEmpty from rfl, hxe]
    dsimp only
    rw [hmap]
    rfl
  · intro a call v desc1 hd hfalsy hname
    have hbeq : (call.name == "ExportToExcel") = false := beq_eq_false_iff_ne.mpr hname
    have hfmt : formatResults v = some FormatOut.sentinel := by
      unfold formatResults
      rw [hfalsy]
      rfl
    have hmain := processInvocation_ok_not_export a call v desc1 FormatOut.sentinel hd hbeq hfmt
    refine ⟨?_, hmain.1⟩
    rw [hmain.2]
    cases v with
    | vList xs =>
      have hxe : xs.isEmpty = true := by
        have h2 : (!xs.isEmpty) = false := hfalsy
        simpa using h2
      simp [cacheUpdate, hxe]
    | vNone => rfl
    | vBool b => rfl
    | vInt n => rfl
    | vStr s => rfl
    | vDict kvs => rfl
    | vRow cells cd => rfl
  · intro a call xs desc1 rs hd hxs hname hmap
    have hbeq : (call.name == "ExportToExcel") = false := beq_eq_false_iff_ne.mpr hname
    have hxe : xs.isEmpty = false := List.isEmpty_eq_false.mpr hxs
    have hfmt : formatResults (PVal.vList xs) = some (.jsonRecords rs) := by
      unfold formatResults
      rw [show pyTruthy (PVal.vList xs) = !xs.isEmpty from rfl, hxe]
      dsimp only
      rw [hmap]
      rfl
    have hmain := processInvocation_ok_not_export a call (.vList xs) desc1 _ hd hbeq hfmt
    refine ⟨hmain.1, ?_⟩
    rw [hmain.2]
    simp [cacheUpdate, hxe, hbeq, bne]
  · intro cells cols
    rfl
  · intro cells
    rfl
  · intro xs
    rfl
  · intro desc kvs h
    exact PVal.noConfusion (Option.some.inj h)

/-- Witness for C6: all normalizer cases at concrete inputs, including an
empty result (sentinel, cache kept), a dict-row result (payload and cache
computed by the two conversions), and the dict-row disagreement. -/
theorem c6_result_normalization_witness :
    formatResults (PVal.vList []) = some FormatOut.sentinel ∧
    formatResults (.vDict [("k", .vInt 7)]) = some (.jsonDict [("k", .vInt 7)]) ∧
    formatResults (.vInt 7) = some (.strVal (.vInt 7)) ∧
    formatResults (.vList [.vList [.vInt 1]]) = some (.jsonRecords [.vList [.vInt 1]]) ∧
    ((processInvocation emptyRowsAgent ⟨"e1", "GetNothing", []⟩).agent.lastQueryResults =
       emptyRowsAgent.lastQueryResults ∧
     (processInvocation emptyRowsAgent ⟨"e1", "GetNothing", []⟩).message =
       Message.toolResult "e1" "GetNothing" (.formatted FormatOut.sentinel)) ∧
    ((processInvocation dictRowsAgent ⟨"f1", "GetDictRows", []⟩).message =
       Message.toolResult "f1" "GetDictRows"
         (.formatted (.jsonRecords [PVal.vList [PVal.vStr "a"]])) ∧
     (processInvocation dictRowsAgent ⟨"f1", "GetDictRows", []⟩).agent.lastQueryResults =
       [PVal.vDict [("a", PVal.vInt 1)]].map (cacheRow none)) ∧
    formatRow (.vList [.vInt 1]) = some (cacheRow none (.vList [.vInt 1])) ∧
    formatRow (.vDict [("a", .vInt 1)]) ≠ some (cacheRow none (.vDict [("a", .vInt 1)])) :=
  ⟨c6_result_normalization.1 (PVal.vList []) rfl,
   c6_result_normalization.2.1 [("k", PVal.vInt 7)] (by simp),
   c6_result_normalization.2.2.1 7 (by norm_num),
   c6_result_normalization.2.2.2.1 [PVal.vList [PVal.vInt 1]] [PVal.vList [PVal.vInt 1]]
     (by simp) rfl,
   c6_result_normalization.2.2.2.2.1 emptyRowsAgent ⟨"e1", "GetNothing", []⟩
     (PVal.vList []) none rfl rfl (by decide),
   c6_result_normalization.2.2.2.2.2.1 dictRowsAgent ⟨"f1", "GetDictRows", []⟩
     [PVal.vDict [("a", PVal.vInt 1)]] none [PVal.vList [PVal.vStr "a"]]
     rfl (by simp) (by decide) rfl,
   c6_result_normalization.2.2.2.2.2.2.2.2.1 [PVal.vInt 1],
   c6_result_normalization.2.2.2.2.2.2.2.2.2 none [("a", PVal.vInt 1)]⟩

end AIAgentSpec
